import Mathlib

/-!
# Verification of the remote-vector-index-builder admission core

A shallow embedding, in Lean 4, of the request-admission, deduplication and
resource-gated scheduling subsystem of the remote vector-index build service:

* `app/base/resources.py`          — `ResourceManager` (GPU/CPU memory ledger)
* `app/storage/memory.py`          — `InMemoryRequestStore` (bounded, TTL-aware map)
* `app/utils/hash.py`              — `generate_job_id` (SHA-256 of canonical params)
* `app/utils/memory.py`            — `calculate_memory_requirements`
* `app/utils/error_message.py`     — `get_field_path`
* `app/services/job_service.py`    — `JobService.create_job` (admission)
* `app/executors/workflow_executor.py` — `WorkflowExecutor._execute_workflow`

Python floats are modelled as exact rationals (`ℚ`); Python `int` as `ℤ`/`ℕ`;
wall-clock instants as `ℕ` seconds; raised exceptions as explicit error values.
Each private method locks a single mutex for its whole body, so concurrent
histories linearize to sequences of the operations modelled here.
-/

/-- `DataType` enum from `core/common/models/index_build_parameters.py`
(the source enum declares only `FLOAT`). -/
inductive DataType where
  | float
deriving DecidableEq, Repr

/-- Modelled from the spec: `DataType.get_size` is called by
`app/utils/memory.py` but is not defined anywhere under the source tree;
the spec's data-type table assigns `FLOAT` an entry size of 4 bytes per
element (`FLOAT` = 4, `FLOAT16` = 2, `BYTE` = 1, `BINARY` = 0.125; only
`FLOAT` exists in the wire enum). -/
def DataType.get_size : DataType → ℚ
  | .float => 4

/-- `SpaceType` enum from `core/common/models/index_build_parameters.py`. -/
inductive SpaceType where
  | l2
  | innerproduct
deriving DecidableEq, Repr

/-- `Algorithm` enum from `core/common/models/index_build_parameters.py`. -/
inductive Algorithm where
  | hnsw
deriving DecidableEq, Repr

/-- `Engine` enum from `core/common/models/index_build_parameters.py`. -/
inductive Engine where
  | faiss
deriving DecidableEq, Repr

/-- `AlgorithmParameters` from `core/common/models/index_build_parameters.py`:
`ef_construction`, `ef_search` and the HNSW graph degree `m` (Python ints). -/
structure AlgorithmParameters where
  ef_construction : ℤ := 100
  ef_search : ℤ := 100
  m : ℤ := 16
deriving DecidableEq, Repr

/-- `IndexParameters` from `core/common/models/index_build_parameters.py`. -/
structure IndexParameters where
  algorithm : Algorithm := .hnsw
  space_type : SpaceType := .l2
  algorithm_parameters : AlgorithmParameters := {}
deriving DecidableEq, Repr

/-- `IndexBuildParameters` from `core/common/models/index_build_parameters.py`.
Pydantic field validation (`dimension > 0`, `doc_count > 1`, vector path
pattern) is carried as hypotheses on the theorems that need it. -/
structure IndexBuildParameters where
  container_name : String
  vector_path : String
  doc_id_path : String
  tenant_id : String := ""
  dimension : ℤ
  doc_count : ℤ
  data_type : DataType := .float
  engine : Engine := .faiss
  index_parameters : IndexParameters := {}
deriving DecidableEq, Repr

/-- `calculate_memory_requirements` from `app/utils/memory.py`, returning
`(gpu_memory, cpu_memory)` in bytes.  Python float arithmetic is modelled
exactly over `ℚ` (`1.1 : ℚ` is `11/10`, `1.5 : ℚ` is `3/2`). -/
def calculate_memory_requirements (index_build_parameters : IndexBuildParameters) : ℚ × ℚ :=
  let m : ℚ := index_build_parameters.index_parameters.algorithm_parameters.m
  let entry_size : ℚ := index_build_parameters.data_type.get_size
  let vector_dimensions : ℚ := index_build_parameters.dimension
  let num_vectors : ℚ := index_build_parameters.doc_count
  let vector_memory : ℚ := vector_dimensions * num_vectors * entry_size
  let index_gpu_memory : ℚ :=
    ((vector_dimensions * entry_size + m * 8) * 1.1 * num_vectors) * 1.5
  let index_cpu_memory : ℚ :=
    (vector_dimensions * entry_size + m * 8) * 1.1 * num_vectors
  (index_gpu_memory + vector_memory, index_cpu_memory + vector_memory)

/-- `RequestParameters` from `app/models/request.py`: the identity-bearing
subset of a build request. -/
structure RequestParameters where
  vector_path : String
  tenant_id : String
deriving DecidableEq, Repr

/-- `RequestParameters.__str__`: the canonical string form
`"{vector_path}-{tenant_id}"`. -/
def RequestParameters.strForm (p : RequestParameters) : String :=
  p.vector_path ++ "-" ++ p.tenant_id

/-- `RequestParameters.__eq__`: equality is string-form equality. -/
def RequestParameters.eqPy (p q : RequestParameters) : Bool :=
  p.strForm == q.strForm

/-- `create_request_parameters` from `app/utils/request.py`. -/
def create_request_parameters (index_build_parameters : IndexBuildParameters) :
    RequestParameters :=
  { vector_path := index_build_parameters.vector_path
    tenant_id := index_build_parameters.tenant_id }

/-! ## SHA-256 (Python `hashlib.sha256(...).hexdigest()`)

A byte-level implementation over `ℕ`, with 32-bit words reduced modulo
`2 ^ 32`.  `generate_job_id` feeds it the UTF-8 encoding of the canonical
request-parameter string. -/

/-- UTF-8 encoding of a single Unicode code point as a list of bytes. -/
def utf8EncodeChar (c : Char) : List ℕ :=
  let n := c.toNat
  if n < 0x80 then [n]
  else if n < 0x800 then
    [0xC0 + n / 0x40, 0x80 + n % 0x40]
  else if n < 0x10000 then
    [0xE0 + n / 0x1000, 0x80 + n / 0x40 % 0x40, 0x80 + n % 0x40]
  else
    [0xF0 + n / 0x40000, 0x80 + n / 0x1000 % 0x40, 0x80 + n / 0x40 % 0x40, 0x80 + n % 0x40]

/-- UTF-8 encoding of a string (Python `str.encode()`). -/
def utf8Encode (s : String) : List ℕ :=
  s.data.flatMap utf8EncodeChar

/-- 32-bit right rotation. -/
def rotr32 (n x : ℕ) : ℕ :=
  ((x >>> n) ||| (x <<< (32 - n))) % 2 ^ 32

/-- SHA-256 round constants (the 32 fractional bits of the cube roots of
the first 64 primes, here as decimal literals). -/
def sha256K : List ℕ :=
  [1116352408, 1899447441, 3049323471, 3921009573, 961987163, 1508970993,
   2453635748, 2870763221, 3624381080, 310598401, 607225278, 1426881987,
   1925078388, 2162078206, 2614888103, 3248222580, 3835390401, 4022224774,
   264347078, 604807628, 770255983, 1249150122, 1555081692, 1996064986,
   2554220882, 2821834349, 2952996808, 3210313671, 3336571891, 3584528711,
   113926993, 338241895, 666307205, 773529912, 1294757372, 1396182291,
   1695183700, 1986661051, 2177026350, 2456956037, 2730485921, 2820302411,
   3259730800, 3345764771, 3516065817, 3600352804, 4094571909, 275423344,
   430227734, 506948616, 659060556, 883997877, 958139571, 1322822218,
   1537002063, 1747873779, 1955562222, 2024104815, 2227730452, 2361852424,
   2428436474, 2756734187, 3204031479, 3329325298]

/-- SHA-256 initial hash state (fractional bits of the square roots of the
first 8 primes, as decimal literals). -/
def sha256H0 : List ℕ :=
  [1779033703, 3144134277, 1013904242, 2773480762,
   1359893119, 2600822924, 528734635, 1541459225]

/-- Pad a message to a multiple of 64 bytes per the SHA-256 rules. -/
def sha256Pad (msg : List ℕ) : List ℕ :=
  let len := msg.length
  let zeros := (64 + 56 - (len + 1) % 64) % 64
  let lenBits := 8 * len
  msg ++ [0x80] ++ List.replicate zeros 0 ++
    [lenBits / 2 ^ 56 % 256, lenBits / 2 ^ 48 % 256, lenBits / 2 ^ 40 % 256,
     lenBits / 2 ^ 32 % 256, lenBits / 2 ^ 24 % 256, lenBits / 2 ^ 16 % 256,
     lenBits / 2 ^ 8 % 256, lenBits % 256]

/-- Split a padded message into 64-byte blocks (`cur` accumulates the current
block in reverse, `cnt` its length). -/
def sha256Blocks : List ℕ → List ℕ → ℕ → List (List ℕ)
  | [], cur, cnt => if cnt = 0 then [] else [cur.reverse]
  | b :: rest, cur, cnt =>
      if cnt = 63 then (b :: cur).reverse :: sha256Blocks rest [] 0
      else sha256Blocks rest (b :: cur) (cnt + 1)

/-- Big-endian 32-bit words of one 64-byte block. -/
def sha256Words : List ℕ → List ℕ
  | b0 :: b1 :: b2 :: b3 :: rest =>
      (b0 * 2 ^ 24 + b1 * 2 ^ 16 + b2 * 2 ^ 8 + b3) :: sha256Words rest
  | _ => []

/-- Extend the 16 message words to 64 via the SHA-256 schedule. -/
def sha256Extend : ℕ → List ℕ → List ℕ
  | 0, w => w
  | n + 1, w =>
      let i := w.length
      let w15 := w.getD (i - 15) 0
      let w2 := w.getD (i - 2) 0
      let s0 := (rotr32 7 w15 ^^^ rotr32 18 w15 ^^^ (w15 >>> 3)) % 2 ^ 32
      let s1 := (rotr32 17 w2 ^^^ rotr32 19 w2 ^^^ (w2 >>> 10)) % 2 ^ 32
      sha256Extend n (w ++ [(w.getD (i - 16) 0 + s0 + w.getD (i - 7) 0 + s1) % 2 ^ 32])

/-- One SHA-256 compression round. -/
def sha256Round (st : List ℕ) (kw : ℕ × ℕ) : List ℕ :=
  match st with
  | [a, b, c, d, e, f, g, h] =>
      let s1 := rotr32 6 e ^^^ rotr32 11 e ^^^ rotr32 25 e
      let ch := (e &&& f) ^^^ ((2 ^ 32 - 1 - e) &&& g)
      let temp1 := (h + s1 + ch + kw.1 + kw.2) % 2 ^ 32
      let s0 := rotr32 2 a ^^^ rotr32 13 a ^^^ rotr32 22 a
      let maj := (a &&& b) ^^^ (a &&& c) ^^^ (b &&& c)
      let temp2 := (s0 + maj) % 2 ^ 32
      [(temp1 + temp2) % 2 ^ 32, a, b, c, (d + temp1) % 2 ^ 32, e, f, g]
  | st => st

/-- Process one block against the running hash state. -/
def sha256Compress (hsh : List ℕ) (block : List ℕ) : List ℕ :=
  let w := sha256Extend 48 (sha256Words block)
  let out := (sha256K.zip w).foldl sha256Round hsh
  (hsh.zip out).map fun p => (p.1 + p.2) % 2 ^ 32

/-- Lowercase-hex rendering of a 32-bit word, fixed width 8. -/
def hex8 (x : ℕ) : String :=
  String.mk ((List.range 8).map fun i => Nat.digitChar (x / 16 ^ (7 - i) % 16))

/-- SHA-256 hex digest of a byte list. -/
def sha256Hex (msg : List ℕ) : String :=
  String.join (((sha256Blocks (sha256Pad msg) [] 0).foldl sha256Compress sha256H0).map hex8)

/-- `generate_job_id` from `app/utils/hash.py`: the SHA-256 hex digest of the
UTF-8 encoded canonical string form of the request parameters. -/
def generate_job_id (request_parameters : RequestParameters) : String :=
  sha256Hex (utf8Encode request_parameters.strForm)

/-! ## Job records and the in-memory request store (`app/storage/memory.py`) -/

/-- `JobStatus` enum from `app/models/job.py`. -/
inductive JobStatus where
  | RUNNING
  | FAILED
  | COMPLETED
deriving DecidableEq, Repr

/-- `Job` from `app/models/job.py`. -/
structure Job where
  id : String
  status : JobStatus
  request_parameters : RequestParameters
  file_name : Option String := none
  error_message : Option String := none
deriving DecidableEq, Repr

/-- `Job.compare_request_parameters`: delegates to `RequestParameters.__eq__`,
i.e. string-form equality. -/
def Job.compare_request_parameters (job : Job) (other : RequestParameters) : Bool :=
  job.request_parameters.eqPy other

/-- Look up the first binding of a key in an association list
(Python dict read `self._store[job_id]`). -/
def dictLookup (l : List (String × Job × ℕ)) (k : String) : Option (Job × ℕ) :=
  match l with
  | [] => none
  | (k1, v) :: rest => if k1 = k then some v else dictLookup rest k

/-- Python dict assignment `self._store[job_id] = v`: replace the binding in
place when the key is present, append it otherwise. -/
def dictInsert (l : List (String × Job × ℕ)) (k : String) (v : Job × ℕ) :
    List (String × Job × ℕ) :=
  match dictLookup l k with
  | some _ => l.map fun kv => if kv.1 = k then (k, v) else kv
  | none => l ++ [(k, v)]

/-- Python dict deletion `del self._store[job_id]`. -/
def dictErase (l : List (String × Job × ℕ)) (k : String) : List (String × Job × ℕ) :=
  l.filter fun kv => kv.1 ≠ k

/-- State of an `InMemoryRequestStore`: the underlying dict (keys paired with
the job and its insertion timestamp, in seconds), the capacity bound
`_max_size`, and the optional `_ttl_seconds`. -/
structure StoreState where
  entries : List (String × Job × ℕ)
  max_size : ℕ
  ttl_seconds : Option ℕ
deriving DecidableEq, Repr

namespace RequestStore

/-- `InMemoryRequestStore.add`: reject when the dict already holds `_max_size`
entries, otherwise bind `job_id` to `(job, now)`. -/
def add (st : StoreState) (now : ℕ) (job_id : String) (job : Job) : Bool × StoreState :=
  if st.entries.length ≥ st.max_size then (false, st)
  else (true, { st with entries := dictInsert st.entries job_id (job, now) })

/-- `InMemoryRequestStore.get`: return the job when present and not expired;
lazily evict and return `none` when present but expired (a TTL of `0` is
falsy in Python, so it always evicts). -/
def get (st : StoreState) (now : ℕ) (job_id : String) : Option Job × StoreState :=
  match dictLookup st.entries job_id with
  | none => (none, st)
  | some (job, timestamp) =>
      match st.ttl_seconds with
      | none => (some job, st)
      | some ttl =>
          if ttl ≠ 0 ∧ now - timestamp < ttl then (some job, st)
          else (none, { st with entries := dictErase st.entries job_id })

/-- A partial patch passed to `InMemoryRequestStore.update`: the call sites in
the executor pass dicts whose keys are drawn from `status`, `file_name` and
`error_message`; an outer `some` means the key is present in the dict (its
value may itself be `None`). -/
structure Patch where
  status : Option JobStatus := none
  file_name : Option (Option String) := none
  error_message : Option (Option String) := none
deriving DecidableEq, Repr

/-- `setattr(job, key, value)` for each key present in the patch dict. -/
def applyPatch (job : Job) (p : Patch) : Job :=
  { job with
    status := p.status.getD job.status
    file_name := p.file_name.getD job.file_name
    error_message := p.error_message.getD job.error_message }

/-- `InMemoryRequestStore.update`: patch the stored job in place, preserving
its timestamp; `false` when the id is absent. -/
def update (st : StoreState) (job_id : String) (p : Patch) : Bool × StoreState :=
  match dictLookup st.entries job_id with
  | none => (false, st)
  | some (job, timestamp) =>
      (true, { st with entries := dictInsert st.entries job_id (applyPatch job p, timestamp) })

/-- `InMemoryRequestStore.delete`: remove the binding; `false` when absent. -/
def delete (st : StoreState) (job_id : String) : Bool × StoreState :=
  match dictLookup st.entries job_id with
  | none => (false, st)
  | some _ => (true, { st with entries := dictErase st.entries job_id })

end RequestStore

/-! ## Resource manager (`app/base/resources.py`) -/

/-- `ResourceManager` state: fixed totals and the current availability, all in
bytes (`ℚ` models Python floats exactly on these values). -/
structure ResourceManager where
  total_gpu_memory : ℚ
  total_cpu_memory : ℚ
  available_gpu_memory : ℚ
  available_cpu_memory : ℚ
deriving DecidableEq, Repr

namespace ResourceManager

/-- `ResourceManager.__init__`: availability starts at the totals. -/
def init (total_gpu total_cpu : ℚ) : ResourceManager :=
  { total_gpu_memory := total_gpu
    total_cpu_memory := total_cpu
    available_gpu_memory := total_gpu
    available_cpu_memory := total_cpu }

/-- `ResourceManager.allocate`: all-or-nothing check-and-subtract. -/
def allocate (rm : ResourceManager) (gpu_memory cpu_memory : ℚ) :
    Bool × ResourceManager :=
  if rm.available_gpu_memory ≥ gpu_memory ∧ rm.available_cpu_memory ≥ cpu_memory then
    (true, { rm with
      available_gpu_memory := rm.available_gpu_memory - gpu_memory
      available_cpu_memory := rm.available_cpu_memory - cpu_memory })
  else (false, rm)

/-- `ResourceManager.release`: unconditional addition. -/
def release (rm : ResourceManager) (gpu_memory cpu_memory : ℚ) : ResourceManager :=
  { rm with
    available_gpu_memory := rm.available_gpu_memory + gpu_memory
    available_cpu_memory := rm.available_cpu_memory + cpu_memory }

end ResourceManager

/-! ## Workflows, executor and job service -/

/-- `BuildWorkflow` from `app/models/workflow.py`. -/
structure BuildWorkflow where
  job_id : String
  gpu_memory_required : ℚ
  cpu_memory_required : ℚ
  index_build_parameters : IndexBuildParameters
deriving DecidableEq, Repr

/-- Outcome of calling the injected `build_index_fn`: a normal return
`(success, index_path, msg)`, or a raised exception carrying its text. -/
inductive BuildOutcome where
  | ret (success : Bool) (index_path : Option String) (msg : Option String)
  | raises (e : String)
deriving DecidableEq, Repr

/-- Combined mutable state threaded through the service: the request store,
the resource manager, and the list of workflows submitted to the executor's
queue (in submission order). -/
structure SysState where
  store : StoreState
  rm : ResourceManager
  submitted : List BuildWorkflow
deriving DecidableEq, Repr

/-- Errors raised by `JobService.create_job`
(`app/base/exceptions.py`). -/
inductive JobError where
  | hashCollision
  | capacity
deriving DecidableEq, Repr

/-- `WorkflowExecutor._execute_workflow` from
`app/executors/workflow_executor.py`, run against the shared state at instant
`now`, with the injected build function `build_fn`.  The defensive
re-allocation, the survivor check through `get`, the exception handler and the
`finally` release are all modelled branch for branch. -/
def execute_workflow (build_fn : BuildWorkflow → BuildOutcome) (sys : SysState)
    (workflow : BuildWorkflow) (now : ℕ) : SysState :=
  match ResourceManager.allocate sys.rm workflow.gpu_memory_required
      workflow.cpu_memory_required with
  | (false, rm1) =>
      let (_, store1) := RequestStore.update sys.store workflow.job_id
        { status := some .FAILED
          error_message := some (some "Worker has not enough memory available at this time") }
      { sys with store := store1, rm := rm1 }
  | (true, rm1) =>
      match build_fn workflow with
      | .raises e =>
          let (_, store1) := RequestStore.update sys.store workflow.job_id
            { status := some .FAILED, error_message := some (some e) }
          { sys with
            store := store1
            rm := rm1.release workflow.gpu_memory_required workflow.cpu_memory_required }
      | .ret success index_path msg =>
          let (jobOpt, store1) := RequestStore.get sys.store now workflow.job_id
          let store2 :=
            match jobOpt with
            | some _ =>
                (RequestStore.update store1 workflow.job_id
                  { status := some (if success then .COMPLETED else .FAILED)
                    file_name := some index_path
                    error_message := some msg }).2
            | none => store1
          { sys with
            store := store2
            rm := rm1.release workflow.gpu_memory_required workflow.cpu_memory_required }

/-- `JobService.create_job` from `app/services/job_service.py`, composed from
`_validate_job_existence`, `_add_to_request_store` and `_create_workflow`
exactly as in the source.  Returns the raised error or the job id, together
with the state after the call (mutations on error paths persist, as they do
through a raised Python exception). -/
def create_job (sys : SysState) (index_build_parameters : IndexBuildParameters)
    (now : ℕ) : Except JobError String × SysState :=
  let request_parameters := create_request_parameters index_build_parameters
  let job_id := generate_job_id request_parameters
  match RequestStore.get sys.store now job_id with
  | (some job, store1) =>
      if job.compare_request_parameters request_parameters then
        (.ok job_id, { sys with store := store1 })
      else
        (.error .hashCollision, { sys with store := store1 })
  | (none, store1) =>
      let (added, store2) := RequestStore.add store1 now job_id
        { id := job_id, status := .RUNNING, request_parameters := request_parameters }
      if added then
        let (gpu_mem, cpu_mem) := calculate_memory_requirements index_build_parameters
        let workflow : BuildWorkflow :=
          { job_id := job_id
            gpu_memory_required := gpu_mem
            cpu_memory_required := cpu_mem
            index_build_parameters := index_build_parameters }
        match ResourceManager.allocate sys.rm workflow.gpu_memory_required
            workflow.cpu_memory_required with
        | (true, rm1) =>
            (.ok job_id,
             { store := store2, rm := rm1, submitted := sys.submitted ++ [workflow] })
        | (false, _) =>
            let (_, store3) := RequestStore.delete store2 job_id
            (.error .capacity, { sys with store := store3 })
      else
        (.error .capacity, { sys with store := store2 })

/-! ## Validation-error field paths (`app/utils/error_message.py`) -/

/-- One element of a Pydantic validation-error location tuple: a field name or
an array index. -/
inductive LocKey where
  | str (s : String)
  | idx (n : ℤ)
deriving DecidableEq, Repr

/-- The loop body of `get_field_path`: integers append `"[n]"`; strings append
`"." + s`, or bare `s` when nothing has been emitted yet. -/
def fieldPathStep (field_path : List String) (loc : LocKey) : List String :=
  match loc with
  | .idx n => field_path ++ ["[" ++ toString n ++ "]"]
  | .str s => if field_path.isEmpty then field_path ++ [s] else field_path ++ ["." ++ s]

/-- `get_field_path` from `app/utils/error_message.py`. -/
def get_field_path (location : List LocKey) : String :=
  String.join (location.foldl fieldPathStep [])

/-- Rendering of one location element in every non-leading position, as the
claim describes it: string elements joined on with `.`, integers as `[n]`. -/
def fieldPathRenderTail (loc : LocKey) : String :=
  match loc with
  | .idx n => "[" ++ toString n ++ "]"
  | .str s => "." ++ s

/-- The claim's description of the field path: the first element bare (no
leading `.`), every later string element preceded by `.`, integers as `[n]`. -/
def fieldPathSpec : List LocKey → String
  | [] => ""
  | .str s :: rest => s ++ String.join (rest.map fieldPathRenderTail)
  | .idx n :: rest => "[" ++ toString n ++ "]" ++ String.join (rest.map fieldPathRenderTail)

/-! ## Helper lemmas -/

theorem stringJoin_append (a b : List String) :
    String.join (a ++ b) = String.join a ++ String.join b := by
  apply String.ext
  simp [String.join_eq]

theorem dictLookup_erase (l : List (String × Job × ℕ)) (k : String) :
    dictLookup (dictErase l k) k = none := by
  induction l with
  | nil => rfl
  | cons kv rest ih =>
      obtain ⟨k1, v1⟩ := kv
      unfold dictErase at ih ⊢
      rw [List.filter_cons]
      by_cases h : k1 = k
      · rw [if_neg (by simp [h])]
        exact ih
      · rw [if_pos (by simp [h])]
        simp only [dictLookup, h, if_false]
        exact ih

theorem dictLookup_append_self (l : List (String × Job × ℕ)) (k : String) (v : Job × ℕ)
    (h : dictLookup l k = none) : dictLookup (l ++ [(k, v)]) k = some v := by
  induction l with
  | nil => simp [dictLookup]
  | cons kv rest ih =>
      by_cases hk : kv.1 = k
      · simp [dictLookup, hk] at h
      · simp only [List.cons_append]
        simp only [dictLookup, hk, if_false] at h ⊢
        exact ih h

theorem dictInsert_of_absent (l : List (String × Job × ℕ)) (k : String) (v : Job × ℕ)
    (h : dictLookup l k = none) : dictInsert l k v = l ++ [(k, v)] := by
  simp [dictInsert, h]

theorem dictLookup_map_replace (l : List (String × Job × ℕ)) (k : String) (v : Job × ℕ)
    (h : (dictLookup l k).isSome) :
    dictLookup (l.map fun kv => if kv.1 = k then (k, v) else kv) k = some v := by
  induction l with
  | nil => simp [dictLookup] at h
  | cons kv rest ih =>
      obtain ⟨k1, v1⟩ := kv
      rw [List.map_cons]
      by_cases hk : k1 = k
      · rw [if_pos (show ((k1, v1) : String × Job × ℕ).1 = k from hk)]
        simp [dictLookup]
      · rw [if_neg (show ¬((k1, v1) : String × Job × ℕ).1 = k from hk)]
        have h2 : (dictLookup rest k).isSome := by
          simpa [dictLookup, hk] using h
        simp only [dictLookup, hk, if_false]
        exact ih h2

theorem dictLookup_insert_self (l : List (String × Job × ℕ)) (k : String) (v : Job × ℕ) :
    dictLookup (dictInsert l k v) k = some v := by
  unfold dictInsert
  cases h : dictLookup l k with
  | none => exact dictLookup_append_self l k v h
  | some w => exact dictLookup_map_replace l k v (by simp [h])

theorem requestStore_get_absent (st : StoreState) (now : ℕ) (job_id : String)
    (h : dictLookup st.entries job_id = none) :
    RequestStore.get st now job_id = (none, st) := by
  simp [RequestStore.get, h]

/-! ## Concrete fixtures used by witnesses and counterexamples -/

/-- The build request of the spec's end-to-end scenario 1. -/
def ibp0 : IndexBuildParameters :=
  { container_name := "b"
    vector_path := "x.knnvec"
    doc_id_path := "x.knndid"
    tenant_id := ""
    dimension := 3
    doc_count := 5 }

/-- Identity projection of `ibp0`. -/
def rp0 : RequestParameters := create_request_parameters ibp0

/-- Job id of `ibp0`. -/
def jid0 : String := generate_job_id rp0

/-! ## C1 — memory-estimator formula -/

/-- C1: for every valid `IndexBuildParameters` with data type `FLOAT`
(`dimension > 0`, `doc_count > 1`, graph degree `m`),
`calculate_memory_requirements` returns the pair `(gpu, cpu)` with
`gpu = 1.5 * ((d*4 + m*8) * 1.1 * n) + d*n*4` and
`cpu = (d*4 + m*8) * 1.1 * n + d*n*4` bytes (entry size 4 bytes per element),
and (being a total function of the embedded parameters) does not raise. -/
theorem calculate_memory_requirements_float (p : IndexBuildParameters)
    (hdt : p.data_type = DataType.float)
    (hd : 0 < p.dimension) (hn : 1 < p.doc_count) :
    calculate_memory_requirements p =
      (1.5 * (((p.dimension : ℚ) * 4 + (p.index_parameters.algorithm_parameters.m : ℚ) * 8)
          * 1.1 * (p.doc_count : ℚ)) + (p.dimension : ℚ) * (p.doc_count : ℚ) * 4,
       ((p.dimension : ℚ) * 4 + (p.index_parameters.algorithm_parameters.m : ℚ) * 8)
          * 1.1 * (p.doc_count : ℚ) + (p.dimension : ℚ) * (p.doc_count : ℚ) * 4) := by
  simp only [calculate_memory_requirements, hdt, DataType.get_size, Prod.mk.injEq]
  constructor <;> ring_nf

/-- Witness for C1 at the concrete scenario-1 request
(`d = 3`, `n = 5`, `m = 16`): `gpu = 1215`, `cpu = 830` bytes. -/
theorem calculate_memory_requirements_float_witness :
    calculate_memory_requirements ibp0 = (1215, 830) := by
  have h := calculate_memory_requirements_float ibp0 rfl (by decide) (by decide)
  rw [h]
  norm_num [ibp0]

/-! ## C9 — validation-error field paths -/

/-- C9: `get_field_path` renders a location tuple of strings and integers as
the claim describes — string elements joined on with `.`, integer elements as
`[n]`, no leading `.` — and in particular `('a','b',0,'c')` yields
`"a.b[0].c"`. -/
theorem get_field_path_spec :
    (∀ location : List LocKey, get_field_path location = fieldPathSpec location)
    ∧ get_field_path [.str "a", .str "b", .idx 0, .str "c"] = "a.b[0].c" := by
  have aux : ∀ (xs : List LocKey) (acc : List String), acc ≠ [] →
      String.join (xs.foldl fieldPathStep acc) =
        String.join acc ++ String.join (xs.map fieldPathRenderTail) := by
    intro xs
    induction xs with
    | nil =>
        intro acc _
        simp [String.join, String.append_empty]
    | cons x rest ih =>
        intro acc hacc
        have hstep : fieldPathStep acc x = acc ++ [fieldPathRenderTail x] := by
          cases x with
          | idx n => simp [fieldPathStep, fieldPathRenderTail]
          | str s => simp [fieldPathStep, fieldPathRenderTail, hacc]
        rw [List.foldl_cons, hstep, ih (acc ++ [fieldPathRenderTail x]) (by simp),
          List.map_cons]
        rw [stringJoin_append acc [fieldPathRenderTail x]]
        rw [show String.join (fieldPathRenderTail x :: List.map fieldPathRenderTail rest)
            = String.join ([fieldPathRenderTail x] ++ List.map fieldPathRenderTail rest)
          from rfl]
        rw [stringJoin_append [fieldPathRenderTail x] (List.map fieldPathRenderTail rest)]
        rw [String.append_assoc]
    -- done
  have main : ∀ location : List LocKey, get_field_path location = fieldPathSpec location := by
    intro location
    cases location with
    | nil => rfl
    | cons x rest =>
        cases x with
        | str s =>
            show String.join (List.foldl fieldPathStep (fieldPathStep [] (.str s)) rest) = _
            rw [show fieldPathStep [] (.str s) = [s] from rfl]
            rw [aux rest [s] (by simp)]
            simp [fieldPathSpec, String.join]
        | idx n =>
            show String.join (List.foldl fieldPathStep (fieldPathStep [] (.idx n)) rest) = _
            rw [show fieldPathStep [] (.idx n) = ["[" ++ toString n ++ "]"] from rfl]
            rw [aux rest ["[" ++ toString n ++ "]"] (by simp)]
            simp [fieldPathSpec, String.join]
  exact ⟨main, by rw [main]; rfl⟩

/-! ## C8 — request-store capacity check -/

/-- A concrete running job, used as a store entry in counterexamples. -/
def job0 : Job :=
  { id := "j", status := .RUNNING, request_parameters := ⟨"x.knnvec", ""⟩ }

/-- A full store (`max_size = 1`) that already holds the key `"j"`. -/
def st8 : StoreState := { entries := [("j", job0, 0)], max_size := 1, ttl_seconds := none }

/-- C8 counterexample: re-adding the key `"j"` to the full store `st8` returns
`false` although the entry count after the insertion (an in-place overwrite)
would be 1 and would not exceed `max_size = 1` — `add` tests the count before
the insertion, not after. -/
theorem add_full_store_counterexample :
    (RequestStore.add st8 5 "j" job0).1 = false
    ∧ (dictInsert st8.entries "j" (job0, 5)).length ≤ st8.max_size := by
  decide

/-- C8 amended: `Add` returns `false` exactly when the entry count **before**
the insertion is at least `max_size` (even when `job_id` is already present,
in which case the insertion would not grow the map); when it returns `false`
the map is unchanged, and otherwise the job is bound to `job_id` with the
current timestamp and `Add` returns `true`. -/
theorem requestStore_add_characterization (st : StoreState) (now : ℕ) (job_id : String)
    (job : Job) :
    ((RequestStore.add st now job_id job).1 = false ↔ st.max_size ≤ st.entries.length)
    ∧ ((RequestStore.add st now job_id job).1 = false →
        (RequestStore.add st now job_id job).2 = st)
    ∧ ((RequestStore.add st now job_id job).1 = true →
        (RequestStore.add st now job_id job).2
          = { st with entries := dictInsert st.entries job_id (job, now) }) := by
  unfold RequestStore.add
  by_cases h : st.entries.length ≥ st.max_size
  · simp [h]
  · simp [h]

/-- Witness for C8 at a concrete input: adding to an empty one-slot store
succeeds and binds the key. -/
theorem requestStore_add_characterization_witness :
    (RequestStore.add { entries := [], max_size := 1, ttl_seconds := none } 0 "j" job0).2
      = { entries := [("j", job0, 0)], max_size := 1, ttl_seconds := none } := by
  have h := (requestStore_add_characterization
    { entries := [], max_size := 1, ttl_seconds := none } 0 "j" job0).2.2 (by decide)
  rw [h]
  rfl

/-! ## C10 — TTL-zero store retains nothing -/

/-- C10: on a store whose `ttl_seconds` is `0` (not `None`), `get` always
returns `none` and removes the queried entry — `0` is falsy in the Python
expiry test — while `add` still succeeds under capacity; so no entry of a
TTL-zero store is ever retrievable, even immediately after a successful
`add`. -/
theorem get_ttl_zero (st : StoreState) (h : st.ttl_seconds = some 0) :
    (∀ now job_id, (RequestStore.get st now job_id).1 = none
        ∧ dictLookup ((RequestStore.get st now job_id).2).entries job_id = none)
    ∧ (∀ now job_id job, st.entries.length < st.max_size →
        (RequestStore.add st now job_id job).1 = true
        ∧ (RequestStore.get (RequestStore.add st now job_id job).2 now job_id).1 = none) := by
  constructor
  · intro now job_id
    unfold RequestStore.get
    cases hl : dictLookup st.entries job_id with
    | none => simp [hl]
    | some jt =>
        obtain ⟨job, ts⟩ := jt
        simp [hl, h, dictLookup_erase]
  · intro now job_id job hlen
    have hadd : RequestStore.add st now job_id job
        = (true, { st with entries := dictInsert st.entries job_id (job, now) }) := by
      unfold RequestStore.add
      rw [if_neg (by omega)]
    rw [hadd]
    refine ⟨rfl, ?_⟩
    unfold RequestStore.get
    simp [dictLookup_insert_self, h]

/-- Witness for C10: an empty TTL-zero store accepts `"j"` (`add` returns
`true`) and immediately loses it (`get` returns `none`). -/
theorem get_ttl_zero_witness :
    (RequestStore.add { entries := [], max_size := 1, ttl_seconds := some 0 } 0 "j" job0).1 = true
    ∧ (RequestStore.get
        (RequestStore.add { entries := [], max_size := 1, ttl_seconds := some 0 } 0 "j" job0).2
        0 "j").1 = none :=
  (get_ttl_zero { entries := [], max_size := 1, ttl_seconds := some 0 } rfl).2 0 "j" job0
    (by decide)

/-! ## C3 — job-id determinism and (non-)injectivity -/

/-- Request parameters `vector_path = "a-"`, `tenant_id = "b"`. -/
def rpA : RequestParameters := ⟨"a-", "b"⟩

/-- Request parameters `vector_path = "a"`, `tenant_id = "-b"`: different in
both fields from `rpA`, yet with the same canonical string `"a--b"`. -/
def rpB : RequestParameters := ⟨"a", "-b"⟩

/-- C3 counterexample: `rpA` and `rpB` differ in `vector_path` and in
`tenant_id`, yet their canonical strings `"{vector_path}-{tenant_id}"`
coincide (both are `"a--b"`), so `generate_job_id` hashes the same bytes and
returns the same job id for both. -/
theorem generate_job_id_collision :
    rpA.vector_path ≠ rpB.vector_path ∧ rpA.tenant_id ≠ rpB.tenant_id
    ∧ generate_job_id rpA = generate_job_id rpB := by
  refine ⟨by decide, by decide, ?_⟩
  have h : rpA.strForm = rpB.strForm := by decide
  unfold generate_job_id
  rw [h]

/-- C3 amended: equal `RequestParameters` yield equal job ids, and more
generally the job id is a function of the canonical string form
`"{vector_path}-{tenant_id}"` alone — so parameters that differ in
`tenant_id` or `vector_path` get different ids only when their canonical
strings also differ (and the SHA-256 digests of those strings differ). -/
theorem generate_job_id_canonical :
    (∀ p q : RequestParameters, p = q → generate_job_id p = generate_job_id q)
    ∧ (∀ p q : RequestParameters, p.strForm = q.strForm →
        generate_job_id p = generate_job_id q) := by
  refine ⟨fun p q h => by rw [h], fun p q h => ?_⟩
  unfold generate_job_id
  rw [h]

/-- Witness for C3 at concrete inputs: two string-form-equal parameter values
get the same id. -/
theorem generate_job_id_canonical_witness :
    generate_job_id rpA = generate_job_id rpB :=
  generate_job_id_canonical.2 rpA rpB (by decide)

/-! ## C4 — resource-ledger bounds under operation sequences -/

/-- One call on the resource manager: `TryAllocate` or `Release`. -/
inductive ROp where
  | alloc (gpu cpu : ℚ)
  | release (gpu cpu : ℚ)
deriving DecidableEq, Repr

/-- Apply one call to the ledger (the boolean result of `allocate` is
discarded; only the state matters here). -/
def rmStep (rm : ResourceManager) : ROp → ResourceManager
  | .alloc g c => (rm.allocate g c).2
  | .release g c => rm.release g c

/-- Run a sequence of calls left to right. -/
def rmRun (rm : ResourceManager) (ops : List ROp) : ResourceManager :=
  ops.foldl rmStep rm

/-- The claimed ledger invariant: `0 ≤ available ≤ total` on both dimensions. -/
def rmInv (rm : ResourceManager) : Prop :=
  0 ≤ rm.available_gpu_memory ∧ rm.available_gpu_memory ≤ rm.total_gpu_memory
  ∧ 0 ≤ rm.available_cpu_memory ∧ rm.available_cpu_memory ≤ rm.total_cpu_memory

/-- C4 counterexample: a single unmatched `Release(1, 1)` on a fresh ledger
with totals `(1, 1)` drives `available_gpu` to `2 > total_gpu`, violating the
claimed invariant — `release` adds unconditionally and the manager does not
track outstanding reservations. -/
theorem rmInv_violated_by_unmatched_release :
    ¬ rmInv (rmRun (ResourceManager.init 1 1) [ROp.release 1 1]) := by
  intro h
  have h2 := h.2.1
  simp [rmRun, rmStep, ResourceManager.init, ResourceManager.release] at h2
  norm_num at h2

/-- A trace is well scoped when every requested amount is nonnegative and
every `Release` returns at most what is currently outstanding (allocated by a
successful `TryAllocate` and not yet released), per dimension; `outG`/`outC`
track the outstanding amounts. -/
def wellScoped (rm : ResourceManager) (outG outC : ℚ) : List ROp → Bool
  | [] => true
  | .alloc g c :: rest =>
      if 0 ≤ g ∧ 0 ≤ c then
        let res := rm.allocate g c
        wellScoped res.2 (if res.1 then outG + g else outG)
          (if res.1 then outC + c else outC) rest
      else false
  | .release g c :: rest =>
      if 0 ≤ g ∧ g ≤ outG ∧ 0 ≤ c ∧ c ≤ outC then
        wellScoped (rm.release g c) (outG - g) (outC - c) rest
      else false

/-- Ghost invariant tying the ledger to the outstanding amounts. -/
def rmGhostInv (rm : ResourceManager) (outG outC : ℚ) : Prop :=
  0 ≤ outG ∧ 0 ≤ outC
  ∧ rm.available_gpu_memory + outG = rm.total_gpu_memory
  ∧ rm.available_cpu_memory + outC = rm.total_cpu_memory
  ∧ 0 ≤ rm.available_gpu_memory ∧ 0 ≤ rm.available_cpu_memory

theorem rmGhostInv_imp_rmInv (rm : ResourceManager) (outG outC : ℚ)
    (h : rmGhostInv rm outG outC) : rmInv rm := by
  obtain ⟨hg, hc, heg, hec, hag, hac⟩ := h
  exact ⟨hag, by linarith, hac, by linarith⟩

theorem wellScoped_ghost_preserved (ops : List ROp) :
    ∀ (rm : ResourceManager) (outG outC : ℚ), rmGhostInv rm outG outC →
      wellScoped rm outG outC ops = true →
      ∀ n : ℕ, rmInv (rmRun rm (ops.take n)) := by
  induction ops with
  | nil =>
      intro rm outG outC hinv _ n
      simpa [rmRun] using rmGhostInv_imp_rmInv rm outG outC hinv
  | cons op rest ih =>
      intro rm outG outC hinv hws n
      cases n with
      | zero => simpa [rmRun] using rmGhostInv_imp_rmInv rm outG outC hinv
      | succ m =>
          rw [List.take_succ_cons,
            show rmRun rm (op :: List.take m rest) = rmRun (rmStep rm op) (List.take m rest)
              from rfl]
          obtain ⟨hg, hc, heg, hec, hag, hac⟩ := hinv
          cases op with
          | alloc g c =>
              unfold wellScoped at hws
              by_cases hnn : 0 ≤ g ∧ 0 ≤ c
              · rw [if_pos hnn] at hws
                have hstep : rmStep rm (.alloc g c) = (rm.allocate g c).2 := rfl
                by_cases hcan : rm.available_gpu_memory ≥ g ∧ rm.available_cpu_memory ≥ c
                · have hall : rm.allocate g c = (true,
                      { rm with
                        available_gpu_memory := rm.available_gpu_memory - g
                        available_cpu_memory := rm.available_cpu_memory - c }) := by
                    simp [ResourceManager.allocate, hcan]
                  rw [hstep, hall]
                  refine ih _ (outG + g) (outC + c) ?_ (by simpa [hall] using hws) m
                  refine ⟨by linarith [hnn.1], by linarith [hnn.2], ?_, ?_, ?_, ?_⟩ <;>
                    first
                      | linarith [hcan.1, hcan.2]
                      | (simp [ResourceManager.allocate, ResourceManager.release];
                         linarith [hcan.1, hcan.2])
                · have hall : rm.allocate g c = (false, rm) := by
                    simp [ResourceManager.allocate, hcan]
                  rw [hstep, hall]
                  exact ih rm outG outC ⟨hg, hc, heg, hec, hag, hac⟩
                    (by simpa [hall] using hws) m
              · rw [if_neg hnn] at hws
                exact absurd hws (by simp)
          | release g c =>
              unfold wellScoped at hws
              by_cases hok : 0 ≤ g ∧ g ≤ outG ∧ 0 ≤ c ∧ c ≤ outC
              · rw [if_pos hok] at hws
                have hstep : rmStep rm (.release g c)
                    = { rm with
                        available_gpu_memory := rm.available_gpu_memory + g
                        available_cpu_memory := rm.available_cpu_memory + c } := by
                  simp [rmStep, ResourceManager.release]
                rw [hstep]
                refine ih _ (outG - g) (outC - c) ?_ hws m
                obtain ⟨h1, h2, h3, h4⟩ := hok
                refine ⟨by linarith, by linarith, ?_, ?_, ?_, ?_⟩ <;>
                  first
                    | linarith
                    | (simp [ResourceManager.release]; linarith)
              · rw [if_neg hok] at hws
                exact absurd hws (by simp)

/-- C4 amended: starting from a fresh ledger with nonnegative totals, after
every operation of any **well-scoped** sequence of `TryAllocate` / `Release`
calls — all amounts nonnegative, and each `Release` returning at most the
outstanding allocated amount per dimension — the ledger satisfies
`0 ≤ available_gpu ≤ total_gpu` and `0 ≤ available_cpu ≤ total_cpu`.  (The
unrestricted claim fails: see the unmatched-release counterexample.) -/
theorem rmInv_of_wellScoped (total_gpu total_cpu : ℚ)
    (hg : 0 ≤ total_gpu) (hc : 0 ≤ total_cpu) (ops : List ROp)
    (hws : wellScoped (ResourceManager.init total_gpu total_cpu) 0 0 ops = true)
    (n : ℕ) :
    rmInv (rmRun (ResourceManager.init total_gpu total_cpu) (ops.take n)) := by
  refine wellScoped_ghost_preserved ops _ 0 0 ?_ hws n
  exact ⟨le_refl 0, le_refl 0, by simp [ResourceManager.init],
    by simp [ResourceManager.init], hg, hc⟩

/-- Witness for C4 at a concrete trace: a matched allocate/release pair on a
`(1, 1)` ledger keeps the bounds at every step. -/
theorem rmInv_of_wellScoped_witness :
    rmInv (rmRun (ResourceManager.init 1 1)
      (List.take 2 [ROp.alloc 1 1, ROp.release 1 1])) := by
  refine rmInv_of_wellScoped 1 1 (by norm_num) (by norm_num)
    [ROp.alloc 1 1, ROp.release 1 1] ?_ 2
  norm_num [wellScoped, ResourceManager.allocate, ResourceManager.init,
    ResourceManager.release]

/-! ## C7 — executor exception handling -/

/-- C7: when the injected build function raises, `_execute_workflow` (run here
as a total transition — the worker catches the exception, which therefore
never propagates) records `FAILED_INDEX_BUILD` with the exception text on the
stored job, and the `finally` block returns the workflow's GPU and CPU
requirement to the resource manager, leaving availability exactly where it was
when the worker started. -/
theorem execute_workflow_exception (build_fn : BuildWorkflow → BuildOutcome)
    (sys : SysState) (wf : BuildWorkflow) (now : ℕ) (e : String) (j : Job) (ts : ℕ)
    (halloc : sys.rm.available_gpu_memory ≥ wf.gpu_memory_required
      ∧ sys.rm.available_cpu_memory ≥ wf.cpu_memory_required)
    (hbuild : build_fn wf = .raises e)
    (hjob : dictLookup sys.store.entries wf.job_id = some (j, ts)) :
    dictLookup (execute_workflow build_fn sys wf now).store.entries wf.job_id
      = some ({ j with status := .FAILED, error_message := some e }, ts)
    ∧ (execute_workflow build_fn sys wf now).rm.available_gpu_memory
        = sys.rm.available_gpu_memory
    ∧ (execute_workflow build_fn sys wf now).rm.available_cpu_memory
        = sys.rm.available_cpu_memory := by
  have hall : sys.rm.allocate wf.gpu_memory_required wf.cpu_memory_required
      = (true,
         { sys.rm with
           available_gpu_memory := sys.rm.available_gpu_memory - wf.gpu_memory_required
           available_cpu_memory := sys.rm.available_cpu_memory - wf.cpu_memory_required }) := by
    simp [ResourceManager.allocate, halloc]
  refine ⟨?_, ?_, ?_⟩ <;>
    simp [execute_workflow, hall, hbuild, RequestStore.update, hjob,
      dictLookup_insert_self, RequestStore.applyPatch, ResourceManager.release,
      sub_add_cancel]

/-- A build function that always raises, for the C7 witness. -/
def buildRaises : BuildWorkflow → BuildOutcome := fun _ => .raises "boom"

/-- System state for the C7 witness: `job0` stored under `"j"`, ledger
`(10, 10)` fully available. -/
def sys7 : SysState :=
  { store := { entries := [("j", job0, 0)], max_size := 10, ttl_seconds := none }
    rm := ResourceManager.init 10 10
    submitted := [] }

/-- The workflow executed in the C7 witness. -/
def wf7 : BuildWorkflow :=
  { job_id := "j", gpu_memory_required := 1, cpu_memory_required := 1
    index_build_parameters := ibp0 }

/-- Witness for C7: on the concrete state `sys7`, a raising build marks the
job `FAILED` with text `"boom"` and leaves availability at `(10, 10)`. -/
theorem execute_workflow_exception_witness :
    dictLookup (execute_workflow buildRaises sys7 wf7 0).store.entries "j"
      = some ({ job0 with status := .FAILED, error_message := some "boom" }, 0)
    ∧ (execute_workflow buildRaises sys7 wf7 0).rm.available_gpu_memory
        = sys7.rm.available_gpu_memory
    ∧ (execute_workflow buildRaises sys7 wf7 0).rm.available_cpu_memory
        = sys7.rm.available_cpu_memory :=
  execute_workflow_exception buildRaises sys7 wf7 0 "boom" job0 0
    (by constructor <;> norm_num [sys7, wf7, ResourceManager.init]) rfl (by decide)

/-! ## C5 — admission rollback on reservation failure -/

/-- C5: whenever `create_job` passes the dedup check (`get` sees no live
entry), the store `add` succeeds, and the subsequent reservation
`ResourceManager.allocate` fails, `create_job` deletes the just-added entry
and raises `CapacityError`: the call returns the capacity error and no store
entry for the job id remains afterwards. -/
theorem create_job_rollback (sys : SysState) (ibp : IndexBuildParameters) (now : ℕ)
    (hget : (RequestStore.get sys.store now
      (generate_job_id (create_request_parameters ibp))).1 = none)
    (hlen : ((RequestStore.get sys.store now
      (generate_job_id (create_request_parameters ibp))).2).entries.length
        < sys.store.max_size)
    (halloc : ¬(sys.rm.available_gpu_memory ≥ (calculate_memory_requirements ibp).1
      ∧ sys.rm.available_cpu_memory ≥ (calculate_memory_requirements ibp).2)) :
    (create_job sys ibp now).1 = .error .capacity
    ∧ dictLookup ((create_job sys ibp now).2).store.entries
        (generate_job_id (create_request_parameters ibp)) = none := by
  obtain ⟨gm, cm, hcalc⟩ : ∃ a b, calculate_memory_requirements ibp = (a, b) :=
    ⟨_, _, rfl⟩
  obtain ⟨o, st1, hg⟩ : ∃ o st1,
      RequestStore.get sys.store now
        (generate_job_id (create_request_parameters ibp)) = (o, st1) :=
    ⟨_, _, rfl⟩
  have ho : o = none := by rw [hg] at hget; exact hget
  subst ho
  have hlen1 : st1.entries.length < sys.store.max_size := by
    rw [hg] at hlen; exact hlen
  have hmaxeq : st1.max_size = sys.store.max_size := by
    have hk : (RequestStore.get sys.store now
        (generate_job_id (create_request_parameters ibp))).2.max_size
          = sys.store.max_size := by
      unfold RequestStore.get
      cases dictLookup sys.store.entries
          (generate_job_id (create_request_parameters ibp)) with
      | none => rfl
      | some jt =>
          obtain ⟨job, tstamp⟩ := jt
          cases sys.store.ttl_seconds with
          | none => rfl
          | some t => by_cases hc : t ≠ 0 ∧ now - tstamp < t <;> simp [hc]
    rw [hg] at hk
    exact hk
  have hIf : ¬(st1.entries.length ≥ st1.max_size) := by
    rw [hmaxeq]; omega
  have halloc2 : ¬(sys.rm.available_gpu_memory ≥ gm
      ∧ sys.rm.available_cpu_memory ≥ cm) := by
    rw [hcalc] at halloc; exact halloc
  simp only [create_job, hg, hcalc, RequestStore.add, hIf, if_false,
    ResourceManager.allocate, halloc2, RequestStore.delete,
    dictLookup_insert_self, ite_false]
  exact ⟨rfl, dictLookup_erase _ _⟩

/-- System state for the C5 witness: empty one-slot store, zero-byte ledger. -/
def sys5 : SysState :=
  { store := { entries := [], max_size := 1, ttl_seconds := none }
    rm := ResourceManager.init 0 0
    submitted := [] }

/-- The memory estimate of the scenario-1 request: `d = 3`, `n = 5`, `m = 16`
give `gpu = 1215` and `cpu = 830` bytes. -/
theorem calc_mem_ibp0 : calculate_memory_requirements ibp0 = (1215, 830) := by
  norm_num [calculate_memory_requirements, ibp0, DataType.get_size]

/-- Witness for C5: on `sys5` (no memory at all), `create_job` with the
scenario-1 request returns the capacity error and leaves no store entry. -/
theorem create_job_rollback_witness :
    (create_job sys5 ibp0 0).1 = .error .capacity
    ∧ dictLookup ((create_job sys5 ibp0 0).2).store.entries
        (generate_job_id (create_request_parameters ibp0)) = none := by
  refine create_job_rollback sys5 ibp0 0 ?_ ?_ ?_
  · exact congrArg Prod.fst (requestStore_get_absent sys5.store 0 _ rfl)
  · rw [requestStore_get_absent sys5.store 0 _ rfl]
    decide
  · intro hcontr
    have h1 := hcontr.1
    rw [calc_mem_ibp0] at h1
    norm_num [sys5, ResourceManager.init] at h1

/-! ## C6 — idempotent dedup in `create_job` -/

/-- The fresh `RUNNING` job record that `create_job` inserts for a request. -/
def initialJob (ibp : IndexBuildParameters) : Job :=
  { id := generate_job_id (create_request_parameters ibp)
    status := .RUNNING
    request_parameters := create_request_parameters ibp }

/-- C6: if `create_job` is called twice in sequence with the same parameters
(the job id initially absent, the first call succeeding, and the stored entry
not expired at the second call), the second call returns the same job id and
leaves the state untouched — it returns at the dedup check without adding,
reserving, or submitting — so exactly one workflow (the first call's) has been
submitted to the executor. -/
theorem create_job_idempotent (sys0 sys1 : SysState) (ibp : IndexBuildParameters)
    (now1 now2 : ℕ) (jid : String)
    (habsent : dictLookup sys0.store.entries
      (generate_job_id (create_request_parameters ibp)) = none)
    (h1 : create_job sys0 ibp now1 = (.ok jid, sys1))
    (httl : sys0.store.ttl_seconds = none
      ∨ ∃ t, sys0.store.ttl_seconds = some t ∧ t ≠ 0 ∧ now2 - now1 < t) :
    create_job sys1 ibp now2 = (.ok jid, sys1)
    ∧ sys1.submitted = sys0.submitted ++
        [{ job_id := generate_job_id (create_request_parameters ibp)
           gpu_memory_required := (calculate_memory_requirements ibp).1
           cpu_memory_required := (calculate_memory_requirements ibp).2
           index_build_parameters := ibp }] := by
  obtain ⟨gm, cm, hcalc⟩ : ∃ a b, calculate_memory_requirements ibp = (a, b) :=
    ⟨_, _, rfl⟩
  have hgetEq := requestStore_get_absent sys0.store now1 _ habsent
  by_cases hlen : sys0.store.entries.length ≥ sys0.store.max_size
  · simp [create_job, hgetEq, RequestStore.add, hlen] at h1
  · by_cases hcan : sys0.rm.available_gpu_memory ≥ gm
        ∧ sys0.rm.available_cpu_memory ≥ cm
    · have hallEq : sys0.rm.allocate gm cm
          = (true,
             { sys0.rm with
               available_gpu_memory := sys0.rm.available_gpu_memory - gm
               available_cpu_memory := sys0.rm.available_cpu_memory - cm }) := by
        simp [ResourceManager.allocate, hcan]
      simp only [create_job, hgetEq, RequestStore.add, hcalc, hallEq, ge_iff_le,
        if_neg hlen, if_true, eq_self_iff_true, Prod.mk.injEq, Except.ok.injEq] at h1
      obtain ⟨hjid, hsys⟩ := h1
      subst hjid
      have hlook : dictLookup sys1.store.entries
          (generate_job_id (create_request_parameters ibp))
          = some (initialJob ibp, now1) := by
        rw [← hsys]
        exact dictLookup_insert_self _ _ _
      have httl1 : sys1.store.ttl_seconds = sys0.store.ttl_seconds := by
        rw [← hsys]
      have hget2 : RequestStore.get sys1.store now2
          (generate_job_id (create_request_parameters ibp))
          = (some (initialJob ibp), sys1.store) := by
        simp only [RequestStore.get, hlook, httl1]
        rcases httl with hnone | ⟨t, ht, htnz, htlt⟩
        · rw [hnone]
        · rw [ht]
          simp [htnz, htlt]
      constructor
      · simp only [create_job, hget2, Job.compare_request_parameters,
          RequestParameters.eqPy, initialJob, beq_self_eq_true, if_true]
      · rw [← hsys, hcalc]
    · have hallEq : sys0.rm.allocate gm cm = (false, sys0.rm) := by
        simp [ResourceManager.allocate, hcan]
      simp [create_job, hgetEq, RequestStore.add, hlen, hcalc, hallEq] at h1

/-! ## Concrete end-to-end run (used by the C6 witness and the C2 evidence) -/

/-- Startup state: empty 10-slot store, no TTL, `(10000, 10000)` bytes free. -/
def sysW : SysState :=
  { store := { entries := [], max_size := 10, ttl_seconds := none }
    rm := ResourceManager.init 10000 10000
    submitted := [] }

/-- The workflow `create_job` builds for `ibp0`: its memory estimate is
`(1215, 830)` bytes. -/
def wfW : BuildWorkflow :=
  { job_id := jid0, gpu_memory_required := 1215, cpu_memory_required := 830
    index_build_parameters := ibp0 }

/-- State after a first successful `create_job sysW ibp0`: entry stored,
`(1215, 830)` reserved, one workflow submitted. -/
def sysW1 : SysState :=
  { store := { entries := [(jid0, initialJob ibp0, 0)], max_size := 10, ttl_seconds := none }
    rm := { total_gpu_memory := 10000, total_cpu_memory := 10000
            available_gpu_memory := 8785, available_cpu_memory := 9170 }
    submitted := [wfW] }

theorem create_job_first_run : create_job sysW ibp0 0 = (.ok jid0, sysW1) := by
  have hallEq : sysW.rm.allocate 1215 830
      = (true, { total_gpu_memory := 10000, total_cpu_memory := 10000
                 available_gpu_memory := 8785, available_cpu_memory := 9170 }) := by
    norm_num [ResourceManager.allocate, sysW, ResourceManager.init]
  simp only [create_job, requestStore_get_absent sysW.store 0 _ rfl,
    RequestStore.add, calc_mem_ibp0, hallEq]
  norm_num [sysW, sysW1, wfW, jid0, rp0, initialJob, dictInsert, dictLookup]

/-- Witness for C6: after the concrete first call (`create_job_first_run`),
the second identical call returns the same id and does not change the state. -/
theorem create_job_idempotent_witness :
    create_job sysW1 ibp0 0 = (.ok jid0, sysW1) :=
  (create_job_idempotent sysW sysW1 ibp0 0 0 jid0 rfl create_job_first_run
    (Or.inl rfl)).1

/-! ## C2 — resources are NOT restored after a finished workflow (code bug) -/

/-- A build function that succeeds immediately with artifact `"x.faiss"`. -/
def buildOk : BuildWorkflow → BuildOutcome := fun _ => .ret true (some "x.faiss") none

/-- The stored job after the successful build. -/
def jobDone : Job :=
  { id := jid0, status := .COMPLETED, request_parameters := rp0
    file_name := some "x.faiss", error_message := none }

/-- State after the worker finishes `wfW` on `sysW1`: the job is COMPLETED,
but availability is `(8785, 9170)` — the admission-time reservation was never
released (the worker allocated a second time and released only once). -/
def sysW2 : SysState :=
  { store := { entries := [(jid0, jobDone, 0)], max_size := 10, ttl_seconds := none }
    rm := { total_gpu_memory := 10000, total_cpu_memory := 10000
            available_gpu_memory := 8785, available_cpu_memory := 9170 }
    submitted := [wfW] }

theorem execute_after_create : execute_workflow buildOk sysW1 wfW 1 = sysW2 := by
  have hallEq : sysW1.rm.allocate wfW.gpu_memory_required wfW.cpu_memory_required
      = (true, { total_gpu_memory := 10000, total_cpu_memory := 10000
                 available_gpu_memory := 7570, available_cpu_memory := 8340 }) := by
    norm_num [ResourceManager.allocate, sysW1, wfW]
  have hlook : dictLookup sysW1.store.entries wfW.job_id
      = some (initialJob ibp0, 0) := by
    simp [sysW1, wfW, dictLookup]
  have hget : RequestStore.get sysW1.store 1 wfW.job_id
      = (some (initialJob ibp0), sysW1.store) := by
    simp only [RequestStore.get, hlook]
    rfl
  simp only [execute_workflow, hallEq, buildOk, hget, RequestStore.update, hlook]
  norm_num [sysW1, sysW2, wfW, RequestStore.applyPatch, ResourceManager.release,
    dictInsert, dictLookup, jobDone, initialJob, rp0, jid0]

/-- C2 evidence (code bug): on the concrete startup state `sysW`
(availability `(10000, 10000)`), an admitted job whose workflow runs to a
terminal `COMPLETED` state leaves availability at `(8785, 9170)` — short of
the pre-`CreateJob` values by exactly the job's `(1215, 830)` requirement.
`JobService._create_workflow` reserves the memory at admission,
`WorkflowExecutor._execute_workflow` allocates it a second time and the
`finally` block releases it only once, so every admitted job permanently
consumes its reservation. -/
theorem create_job_then_execute_leaks :
    (create_job sysW ibp0 0).1 = .ok jid0
    ∧ (create_job sysW ibp0 0).2.submitted = [wfW]
    ∧ (RequestStore.get (execute_workflow buildOk (create_job sysW ibp0 0).2 wfW 1).store
        1 jid0).1 = some jobDone
    ∧ (execute_workflow buildOk (create_job sysW ibp0 0).2 wfW 1).rm.available_gpu_memory
        = 8785
    ∧ (execute_workflow buildOk (create_job sysW ibp0 0).2 wfW 1).rm.available_cpu_memory
        = 9170
    ∧ sysW.rm.available_gpu_memory = 10000
    ∧ sysW.rm.available_cpu_memory = 10000
    ∧ (execute_workflow buildOk (create_job sysW ibp0 0).2 wfW 1).rm.available_gpu_memory
        ≠ sysW.rm.available_gpu_memory
    ∧ (execute_workflow buildOk (create_job sysW ibp0 0).2 wfW 1).rm.available_cpu_memory
        ≠ sysW.rm.available_cpu_memory := by
  have h2 : (create_job sysW ibp0 0).2 = sysW1 := by rw [create_job_first_run]
  rw [h2, execute_after_create, create_job_first_run]
  refine ⟨rfl, rfl, ?_, rfl, rfl, rfl, rfl, ?_, ?_⟩
  · simp [RequestStore.get, sysW2, dictLookup]
  · norm_num [sysW2, sysW, ResourceManager.init]
  · norm_num [sysW2, sysW, ResourceManager.init]
